import Mathlib

/-!
Shallow embedding of the boneio core (src/boneio/mqtt_client.py and
src/boneio/modbus.py) and verification of its specification claims.

The MQTT connection supervisor (`MQTTClient.start_client` together with
`MQTTClient._subscribe_manager`) is embedded as a small transition system over
an explicit client state; the Modbus bus gate (`Modbus.read_single_register`,
`Modbus.read_multiple_registers`, `Modbus.async_close`) is embedded as pure
functions over an explicit client-handle state, with the behaviour of the
underlying pymodbus read call supplied as an oracle argument.
-/

namespace BoneIO

/-! ## MQTT client: data model

`MQTTClient.__init__` sets `reconnect_interval = 1`, creates the asyncio
client (`create_client`) and an empty `UniqueQueue` as `publish_queue`.
We track the client object identity as a generation counter: `create_client`
replaces the object, modelled as bumping the counter. -/

/-- A pending publish-queue entry: the `(topic, payload)` pair that
`send_message` builds and puts on the queue. -/
abbrev PMsg := String × String

/-- State of an `MQTTClient` instance: the reconnect/backoff interval,
the contents of `publish_queue` (pending, FIFO order), and a generation
counter identifying the current `asyncio_client` object. -/
structure ClientState where
  reconnect_interval : Nat
  publish_queue : List PMsg
  client_gen : Nat
  deriving Repr, DecidableEq

/-- The state `MQTTClient.__init__` establishes: `reconnect_interval = 1`,
empty `publish_queue`, the first client created by `create_client`. -/
def initClient : ClientState :=
  { reconnect_interval := 1, publish_queue := [], client_gen := 0 }

/-- The method `MQTTClient.create_client`: replaces `self.asyncio_client` with a fresh
`AsyncioClient` object; nothing else in the state is touched. -/
def create_client (s : ClientState) : ClientState :=
  { s with client_gen := s.client_gen + 1 }

/-! ## The session script of `_subscribe_manager`

`_subscribe_manager` executes, in program order:
entering the client context (MQTT connect), the reset of
`reconnect_interval` to 1, `asyncio.create_task(self._handle_publish())`,
entering `unfiltered_messages()`, `asyncio.create_task(handle_messages(...))`,
`await self.subscribe(topic)`, and finally `asyncio.gather(*tasks)`. -/

/-- One step of `_subscribe_manager`, in source order. -/
inductive SessionEv where
  | connect            -- `await stack.enter_async_context(self.asyncio_client)`
  | resetInterval      -- `self.reconnect_interval = 1`
  | spawnPublishTask   -- `publish_task = asyncio.create_task(self._handle_publish())`
  | enterMessages      -- `await stack.enter_async_context(...unfiltered_messages())`
  | spawnMessagesTask  -- `messages_task = asyncio.create_task(handle_messages(...))`
  | subscribe          -- `await self.subscribe(topic)`
  | gather             -- `await asyncio.gather(*tasks)`
  deriving Repr, DecidableEq

open SessionEv in
/-- The statements of `_subscribe_manager` in the order the source executes
them. -/
def subscribeManagerScript : List SessionEv :=
  [connect, resetInterval, spawnPublishTask, enterMessages,
   spawnMessagesTask, subscribe, gather]

/-- The steps of `_subscribe_manager` that complete before step `e` raises:
the prefix of the script strictly before `e`. -/
def executedBefore (e : SessionEv) : List SessionEv :=
  subscribeManagerScript.takeWhile (fun x => x ≠ e)

/-- Effect of one `_subscribe_manager` attempt on the client state, given the
index `failAt` in `subscribeManagerScript` of the step at which an `MqttError`
is raised (`_subscribe_manager` itself never returns normally: on full success
it blocks in `gather`).  The only state update inside the session body is
`self.reconnect_interval = 1`, at script index 1; it takes effect exactly when
execution gets past it. -/
def sessionApply (s : ClientState) (failAt : Nat) : ClientState :=
  if 1 < failAt then { s with reconnect_interval := 1 } else s

/-- The `except MqttError` handler of `start_client`: store
`min(reconnect_interval * 2, 900)`, sleep for the **stored** value
(the assignment precedes the `asyncio.sleep` call in the source), then
`create_client()`.  Returns the new state and the slept duration. -/
def handleFailure (s : ClientState) : ClientState × Nat :=
  let next := min (s.reconnect_interval * 2) 900
  (create_client { s with reconnect_interval := next }, next)

/-- One iteration of the `while True` loop of `start_client` in which the
session attempt raises `MqttError` at script index `failAt`. -/
def supervisorIteration (s : ClientState) (failAt : Nat) : ClientState × Nat :=
  handleFailure (sessionApply s failAt)

/-- The sleep durations observed over `n` consecutive failing iterations of
`start_client`, each session attempt failing already at the connect step
(script index 0), starting from state `s`. -/
def observedSleeps : Nat → ClientState → List Nat
  | 0, _ => []
  | n + 1, s =>
    let r := supervisorIteration s 0
    r.2 :: observedSleeps n r.1

/-! ## Publish queue

`UniqueQueue` lives in `boneio.helper`, which is not part of the sources
here; it is modelled from the specification. -/

/-- Modelled from the spec: `UniqueQueue` (from `boneio.helper`, whose source
is not available) — "an ordered, deduplicating buffer"; "re-submission of an
identical pending message is a no-op rather than a duplicate enqueue. Order
among distinct messages is FIFO."  `put_nowait` appends the value unless an
identical value is already pending. -/
def put_nowait (q : List PMsg) (x : PMsg) : List PMsg :=
  if x ∈ q then q else q ++ [x]

/-- The payload argument of `send_message`: a `str` or a `dict`. -/
inductive Payload where
  | str (s : String)
  | dict (d : List (String × String))
  deriving Repr, DecidableEq

/-- Modelled from the spec: `json.dumps` on a `dict` payload produces a JSON
text; its details are irrelevant here, only that it is a function of the
dictionary.  We render the pairs in order. -/
def jsonDumps (d : List (String × String)) : String :=
  "\x7b" ++ String.intercalate ", "
    (d.map (fun p => "\"" ++ p.1 ++ "\": \"" ++ p.2 ++ "\"")) ++ "\x7d"

/-- The method `MQTTClient.send_message`: build
`(topic, json.dumps(payload) if type(payload) == dict else payload)` and
`put_nowait` it on `publish_queue`. -/
def send_message (q : List PMsg) (topic : String) (payload : Payload) :
    List PMsg :=
  put_nowait q (topic, match payload with
    | Payload.str s => s
    | Payload.dict d => jsonDumps d)

/-- The message value `send_message topic payload` enqueues. -/
def messageOf (topic : String) (payload : Payload) : PMsg :=
  (topic, match payload with
    | Payload.str s => s
    | Payload.dict d => jsonDumps d)

/-! ## Modbus bus gate

`Modbus` (src/boneio/modbus.py) holds `self._client` (an
`ModbusSerialClient` or `None` after `async_close`) and `self._lock`
(an `asyncio.Lock`).  The read methods are synchronous; their interaction
with the underlying pymodbus client is captured by an oracle describing the
outcome of the single `read_input_registers` call the source makes. -/

/-- Python exceptions relevant to the modbus code paths.
`attributeError` is what evaluating `None.read_input_registers` raises. -/
inductive PyExc where
  | attributeError
  deriving Repr, DecidableEq

/-- State of a `Modbus` instance: whether `self._client` is a live handle
(`some ()`) or `None` (after `async_close`, or when construction failed). -/
structure ModbusState where
  client : Option Unit
  deriving Repr, DecidableEq

/-- Atomic actions a `Modbus` method performs, recorded as a trace so that
lock usage is observable. -/
inductive Action where
  | lockAcquire   -- entering `async with self._lock`
  | lockRelease   -- leaving `async with self._lock`
  | connectCall   -- `self._client.connect()` inside `_pymodbus_connect`
  | busRead       -- `self._client.read_input_registers(address, **kwargs)`
  | clientClose   -- `self._client.close()`
  | setClientNone -- `del self._client; self._client = None`
  deriving Repr, DecidableEq

/-- The truth value of the guard `if not self._pymodbus_connect:` in
`read_single_register` and `read_multiple_registers`.  The source tests the
bound method object itself (it is not called), and a bound method is always
truthy, so `not self._pymodbus_connect` is always `False`. -/
def pymodbus_connect_guard_not : Bool := false

/-- The keyword arguments passed to `read_input_registers`:
`kwargs = {"unit": unit, "count": count} if unit else {}`.
`unit` is falsy exactly when it is `None` or `0`. -/
def readKwargs (unit : Option Int) (count : Int) :
    Option (Option Int × Int) :=
  match unit with
  | none => none
  | some u => if u = 0 then none else some (some u, count)

/-- A call to `read_input_registers`: the positional address and the keyword
arguments actually passed (`none` when `kwargs = {}`). -/
abbrev ReadCall := Int × Option (Option Int × Int)

/-- Outcome of the underlying `self._client.read_input_registers` call:
it raises a `ModbusException`, or returns a response object that lacks the
`registers` attribute, or returns a response carrying a pair of 16-bit
register values. -/
inductive ReadOutcome where
  | raisesModbus
  | responseNoRegisters
  | response (r0 r1 : Nat)
  deriving Repr, DecidableEq

/-- Modelled from the spec: the decoding contract of
`BinaryPayloadDecoder.fromRegisters(..., byteorder=Endian.Big,
wordorder=Endian.Big).decode_32bit_float()` (pymodbus, outside these
sources) — "two consecutive 16-bit registers, big-endian byte order and
big-endian word order, interpreted as one IEEE-754 32-bit floating value".
`fromRegisters` with big-endian byte order renders each register as its
high byte then its low byte; big-endian word order keeps the first register
first.  `decode_32bit_float` reads the four bytes as a big-endian IEEE-754
single.  We represent the resulting float by its 32-bit pattern. -/
def registersToBytesBB (r0 r1 : Nat) : List Nat :=
  [r0 / 256 % 256, r0 % 256, r1 / 256 % 256, r1 % 256]

/-- Big-endian assembly of four bytes into one 32-bit word. -/
def bytesToWordBE : List Nat → Nat
  | [b0, b1, b2, b3] => ((b0 * 256 + b1) * 256 + b2) * 256 + b3
  | _ => 0

/-- The decode performed at the end of `read_single_register`: the bit
pattern of the IEEE-754 single obtained from the two registers with
big-endian byte and word order. -/
def decode_32bit_float_BB (r : Nat × Nat) : Nat :=
  bytesToWordBE (registersToBytesBB r.1 r.2)

/-- The description given by the spec of the decoded pattern, stated directly:
the first register is the high 16-bit word, the second the low word. -/
def specFloat32Word (r0 r1 : Nat) : Nat :=
  (r0 % 65536) * 65536 + r1 % 65536

/-- The numeric value (as a rational) of an IEEE-754 binary32 bit pattern;
`none` for infinities and NaNs.  Used to relate returned bit patterns to
the float values the spec names. -/
def float32ToRat (bits : Nat) : Option ℚ :=
  let b := bits % 2 ^ 32
  let sign : ℚ := if b / 2 ^ 31 = 1 then -1 else 1
  let expo : Nat := b / 2 ^ 23 % 256
  let frac : Nat := b % 2 ^ 23
  if expo = 255 then none
  else if expo = 0 then
    some (sign * ((frac : ℚ) / 2 ^ 23) * (2 ^ 126 : ℚ)⁻¹)
  else
    some (sign * (1 + (frac : ℚ) / 2 ^ 23) * (2 ^ expo : ℚ) / 2 ^ 127)

/-- The method `Modbus.read_single_register(unit, address, count)`:
the guard `if not self._pymodbus_connect:` never fires (the method object is
truthy); `read_input_registers` is then called on `self._client` — an
uncaught `AttributeError` when the handle is `None` — with only
`ModbusException` caught and mapped to `None`; a response without the
`registers` attribute is mapped to `None`; otherwise the two registers are
decoded as a big-endian IEEE-754 single (returned as its bit pattern). -/
def read_single_register (s : ModbusState) (unit : Option Int)
    (address : Int) (count : Int) (io : ReadCall → ReadOutcome) :
    Except PyExc (Option Nat) :=
  if pymodbus_connect_guard_not then Except.ok none
  else
    match s.client with
    | none => Except.error PyExc.attributeError
    | some _ =>
      match io (address, readKwargs unit count) with
      | ReadOutcome.raisesModbus => Except.ok none
      | ReadOutcome.responseNoRegisters => Except.ok none
      | ReadOutcome.response r0 r1 =>
          Except.ok (some (decode_32bit_float_BB (r0, r1)))

/-- The method `Modbus.read_multiple_registers(unit, address, count)`: identical
control flow, but a successful read returns the raw response (the register
pair) instead of a decoded value. -/
def read_multiple_registers (s : ModbusState) (unit : Option Int)
    (address : Int) (count : Int) (io : ReadCall → ReadOutcome) :
    Except PyExc (Option (Nat × Nat)) :=
  if pymodbus_connect_guard_not then Except.ok none
  else
    match s.client with
    | none => Except.error PyExc.attributeError
    | some _ =>
      match io (address, readKwargs unit count) with
      | ReadOutcome.raisesModbus => Except.ok none
      | ReadOutcome.responseNoRegisters => Except.ok none
      | ReadOutcome.response r0 r1 => Except.ok (some (r0, r1))

/-- The action trace of `read_single_register` (and likewise of
`read_multiple_registers`): neither method contains an
`async with self._lock` block — they are plain synchronous methods — so the
trace is the single bus read, with no lock actions and no connect call
(the guard never fires, so `_pymodbus_connect` is never invoked). -/
def read_single_register_actions : List Action := [Action.busRead]

/-- The method `Modbus.async_close`: `async with self._lock:`; if `self._client` is
truthy, call `close()` (a `ModbusException` from it is caught and logged),
then `del self._client; self._client = None`.  `closeRaises` is the oracle
for whether `self._client.close()` raises a `ModbusException`; either way
execution continues to the deletion.  Returns the new state and the action
trace. -/
def async_close (s : ModbusState) (_closeRaises : Bool) :
    ModbusState × List Action :=
  match s.client with
  | some _ =>
    ({ client := none },
     [Action.lockAcquire, Action.clientClose, Action.setClientNone,
      Action.lockRelease])
  | none =>
    ({ client := none }, [Action.lockAcquire, Action.lockRelease])

/-! ## Backoff arithmetic -/

/-- Doubling a capped power of two and recapping yields the next capped
power of two. -/
lemma min_double_cap (m : Nat) :
    min (min (2 ^ m) 900 * 2) 900 = min (2 ^ (m + 1)) 900 := by
  rcases le_or_lt (2 ^ m) 900 with h1 | h1
  · rw [min_eq_left h1, ← pow_succ]
  · have h2 : (900 : Nat) < 2 ^ (m + 1) :=
      lt_of_lt_of_le h1 (Nat.pow_le_pow_right (by norm_num) (Nat.le_succ m))
    rw [min_eq_right (le_of_lt h1)]
    omega

/-- Closed form for the sleeps over consecutive connect failures: starting
from an interval that is a capped power of two `min (2 ^ m) 900`, the `k`-th
sleep is `min (2 ^ (k + m + 1)) 900`. -/
lemma observedSleeps_closed_form (n : Nat) :
    ∀ (s : ClientState) (m : Nat), s.reconnect_interval = min (2 ^ m) 900 →
      observedSleeps n s
        = (List.range n).map (fun k => min (2 ^ (k + m + 1)) 900) := by
  induction n with
  | zero => intro s m _; rfl
  | succ n ih =>
    intro s m h
    have hnext : min (s.reconnect_interval * 2) 900 = min (2 ^ (m + 1)) 900 := by
      rw [h, min_double_cap]
    have hfst : (supervisorIteration s 0).1.reconnect_interval
        = min (2 ^ (m + 1)) 900 := by
      simp [supervisorIteration, sessionApply, handleFailure, create_client,
        hnext]
    have hsnd : (supervisorIteration s 0).2 = min (2 ^ (m + 1)) 900 := by
      simp [supervisorIteration, sessionApply, handleFailure, hnext]
    have hih := ih (supervisorIteration s 0).1 (m + 1) hfst
    show (supervisorIteration s 0).2
        :: observedSleeps n (supervisorIteration s 0).1 = _
    rw [hsnd, hih, List.range_succ_eq_map, List.map_cons, List.map_map]
    congr 1
    · norm_num
    · apply List.map_congr_left
      intro k _
      simp only [Function.comp]
      have harith : k + (m + 1) + 1 = k + 1 + m + 1 := by omega
      rw [harith]

/-! ## Claims about the connection supervisor -/

/-- C1 (corrected, counterexample): the claim says the observed sleep
durations for consecutive failures starting at interval 1 are
`1, 1, 2, 4, 8, ...`; the code stores the doubled interval first and sleeps
for the stored value, so five consecutive failures sleep `2, 4, 8, 16, 32`,
not `1, 1, 2, 4, 8`. -/
theorem C1_counterexample :
    observedSleeps 5 initClient = [2, 4, 8, 16, 32]
    ∧ observedSleeps 5 initClient ≠ [1, 1, 2, 4, 8] := by
  constructor
  · rfl
  · decide

/-- C1 (amended): on each transport failure the supervisor first stores the
doubled interval `min(prev * 2, 900)` and then sleeps for the stored value,
so for `n` consecutive failures starting at interval 1 the observed sleeps
are `2, 4, 8, ..., capped at 900`. -/
theorem C1_backoff_sleeps (n : Nat) (s : ClientState) :
    (supervisorIteration s 0).2 = min (s.reconnect_interval * 2) 900
    ∧ (supervisorIteration s 0).1.reconnect_interval
        = (supervisorIteration s 0).2
    ∧ observedSleeps n initClient
        = (List.range n).map (fun k => min (2 ^ (k + 1)) 900) := by
  refine ⟨rfl, rfl, ?_⟩
  have h := observedSleeps_closed_form n initClient 0 rfl
  simpa using h

/-- C5: the backoff interval starts at 1, every failure stores
`min(prev * 2, 900)`, the interval always stays within `[1, 900]`, the
session resets it to 1 only once execution has passed the connect step
(script index 1 follows the connect at index 0), and a session that fails at
connect leaves the interval untouched. -/
theorem C5_interval_invariant (s : ClientState) (k : Nat)
    (h1 : 1 ≤ s.reconnect_interval) (h2 : s.reconnect_interval ≤ 900) :
    initClient.reconnect_interval = 1
    ∧ (supervisorIteration s 0).1.reconnect_interval
        = min (s.reconnect_interval * 2) 900
    ∧ 1 ≤ (supervisorIteration s k).1.reconnect_interval
    ∧ (supervisorIteration s k).1.reconnect_interval ≤ 900
    ∧ sessionApply s 0 = s
    ∧ (1 < k → (sessionApply s k).reconnect_interval = 1)
    ∧ subscribeManagerScript.indexOf SessionEv.connect
        < subscribeManagerScript.indexOf SessionEv.resetInterval
    ∧ SessionEv.resetInterval ∉ executedBefore SessionEv.connect := by
  refine ⟨rfl, rfl, ?_, ?_, ?_, ?_, by decide, by decide⟩
  · by_cases hk : 1 < k
    · simp [supervisorIteration, sessionApply, handleFailure, create_client,
        hk]
    · simp [supervisorIteration, sessionApply, handleFailure, create_client,
        hk]
      omega
  · by_cases hk : 1 < k <;>
      simp [supervisorIteration, sessionApply, handleFailure, create_client,
        hk]
  · simp [sessionApply]
  · intro hk
    simp [sessionApply, hk]

/-- Witness for `C5_interval_invariant` at `initClient`, `k = 2`. -/
theorem C5_interval_invariant_witness :
    (1 ≤ initClient.reconnect_interval ∧ initClient.reconnect_interval ≤ 900)
    ∧ initClient.reconnect_interval = 1 :=
  ⟨⟨by decide, by decide⟩,
   (C5_interval_invariant initClient 2 (by decide) (by decide)).1⟩

/-- C7: a failing supervisor iteration replaces only the client object
(generation bump via `create_client`) and the backoff interval; the publish
queue is never cleared or replaced, whatever the failure point. -/
theorem C7_queue_preserved (s : ClientState) (k : Nat) :
    (supervisorIteration s k).1.publish_queue = s.publish_queue
    ∧ (supervisorIteration s k).1.client_gen = s.client_gen + 1
    ∧ create_client s = { s with client_gen := s.client_gen + 1 }
    ∧ (create_client s).publish_queue = s.publish_queue := by
  by_cases hk : 1 < k <;>
    simp [supervisorIteration, sessionApply, handleFailure, create_client, hk]

/-- C2 (corrected, counterexample): the claim says the control-topic
subscription is issued before the drain task and the dispatch task are
spawned, and that a subscription failure aborts the session before either
task starts.  In the source, `await self.subscribe(topic)` comes after both
`asyncio.create_task` calls, and by the time a subscription failure can be
raised both tasks have already been spawned. -/
theorem C2_counterexample :
    ¬ (subscribeManagerScript.indexOf SessionEv.subscribe
          < subscribeManagerScript.indexOf SessionEv.spawnPublishTask
       ∧ subscribeManagerScript.indexOf SessionEv.subscribe
          < subscribeManagerScript.indexOf SessionEv.spawnMessagesTask
       ∧ SessionEv.spawnPublishTask ∉ executedBefore SessionEv.subscribe
       ∧ SessionEv.spawnMessagesTask ∉ executedBefore SessionEv.subscribe) := by
  decide

/-- C2 (amended): the subscription to the control topic is issued after the
drain (publish-handling) task and the dispatch (inbound-message) task are
spawned; a subscription failure aborts the session only after both tasks
have started, though before `gather` awaits them. -/
theorem C2_subscribe_after_spawn :
    subscribeManagerScript.indexOf SessionEv.spawnPublishTask
      < subscribeManagerScript.indexOf SessionEv.subscribe
    ∧ subscribeManagerScript.indexOf SessionEv.spawnMessagesTask
      < subscribeManagerScript.indexOf SessionEv.subscribe
    ∧ SessionEv.spawnPublishTask ∈ executedBefore SessionEv.subscribe
    ∧ SessionEv.spawnMessagesTask ∈ executedBefore SessionEv.subscribe
    ∧ SessionEv.gather ∉ executedBefore SessionEv.subscribe := by
  decide

/-! ## Claims about the publish queue -/

/-- Unfolding `send_message` through the queue value it enqueues. -/
lemma send_message_eq_put (q : List PMsg) (t : String) (p : Payload) :
    send_message q t p = put_nowait q (messageOf t p) := by
  cases p <;> rfl

/-- Putting an already-pending value on the queue is a no-op. -/
lemma put_nowait_mem_eq (q : List PMsg) (x : PMsg) (h : x ∈ q) :
    put_nowait q x = q := by
  simp [put_nowait, h]

/-- C6: pending entries stay pairwise distinct (starting from the empty
initial queue), re-submitting a value identical to a pending entry is a
no-op, and two submissions of the same value while it is pending leave
exactly one pending instance. -/
theorem C6_pending_dedup (q : List PMsg) (t : String) (p : Payload)
    (hnd : q.Nodup) :
    initClient.publish_queue.Nodup
    ∧ (send_message q t p).Nodup
    ∧ (messageOf t p ∈ q → send_message q t p = q)
    ∧ send_message (send_message q t p) t p = send_message q t p
    ∧ @List.count PMsg instBEqOfDecidableEq (messageOf t p)
        (send_message (send_message q t p) t p) = 1 := by
  have hmem : messageOf t p ∈ put_nowait q (messageOf t p) := by
    by_cases h : messageOf t p ∈ q <;> simp [put_nowait, h]
  have hnd2 : (put_nowait q (messageOf t p)).Nodup := by
    by_cases h : messageOf t p ∈ q
    · simpa [put_nowait, h] using hnd
    · simp [put_nowait, h, List.nodup_append, hnd]
  have hidem : put_nowait (put_nowait q (messageOf t p)) (messageOf t p)
      = put_nowait q (messageOf t p) := put_nowait_mem_eq _ _ hmem
  refine ⟨List.nodup_nil, ?_, ?_, ?_, ?_⟩
  · rw [send_message_eq_put]; exact hnd2
  · intro h
    rw [send_message_eq_put]
    simp [put_nowait, h]
  · rw [send_message_eq_put, send_message_eq_put, hidem]
  · rw [send_message_eq_put, send_message_eq_put, hidem]
    exact List.count_eq_one_of_mem hnd2 hmem

/-- Witness for `C6_pending_dedup`: a singleton queue containing the
submitted value. -/
theorem C6_pending_dedup_witness :
    ([(("t", "x") : PMsg)]).Nodup
    ∧ send_message [(("t", "x") : PMsg)] "t" (Payload.str "x")
        = [(("t", "x") : PMsg)] :=
  ⟨by decide,
   (C6_pending_dedup [(("t", "x") : PMsg)] "t" (Payload.str "x")
      (by decide)).2.2.1 (by decide)⟩

/-! ## Claims about the modbus bus gate -/

/-- C3 (corrected, counterexample): the claim says no call to
`read_single_register` ever raises, whatever the internal client state,
including after `async_close`.  After `async_close` has set `self._client`
to `None`, the call evaluates `None.read_input_registers`, raising an
`AttributeError` that no handler catches. -/
theorem C3_counterexample :
    read_single_register (async_close ⟨some ()⟩ false).1 (some 1) 10 2
      (fun _ => ReadOutcome.response 0 0)
      = Except.error PyExc.attributeError := rfl

/-- C3 (amended): while a client handle is present, every failure — a
`ModbusException` raised by the read (which is also how a connection failure
surfaces, since the connect-check guard tests the truthiness of the bound
method and never runs) or a response lacking the `registers` field — makes
`read_single_register` (and `read_multiple_registers`) return the `None`
sentinel without raising; only after `async_close` has cleared the handle
does a call raise (`AttributeError`). -/
theorem C3_sentinel_on_failure (u : Option Int) (a c : Int)
    (io : ReadCall → ReadOutcome) :
    (∃ v, read_single_register ⟨some ()⟩ u a c io = Except.ok v)
    ∧ (io (a, readKwargs u c) = ReadOutcome.raisesModbus →
        read_single_register ⟨some ()⟩ u a c io = Except.ok none)
    ∧ (io (a, readKwargs u c) = ReadOutcome.responseNoRegisters →
        read_single_register ⟨some ()⟩ u a c io = Except.ok none)
    ∧ (∃ w, read_multiple_registers ⟨some ()⟩ u a c io = Except.ok w) := by
  refine ⟨?_, ?_, ?_, ?_⟩
  · rcases h : io (a, readKwargs u c) with _ | _ | ⟨r0, r1⟩
    · exact ⟨none, by simp [read_single_register, pymodbus_connect_guard_not, h]⟩
    · exact ⟨none, by simp [read_single_register, pymodbus_connect_guard_not, h]⟩
    · exact ⟨some (decode_32bit_float_BB (r0, r1)),
        by simp [read_single_register, pymodbus_connect_guard_not, h]⟩
  · intro h
    simp [read_single_register, pymodbus_connect_guard_not, h]
  · intro h
    simp [read_single_register, pymodbus_connect_guard_not, h]
  · rcases h : io (a, readKwargs u c) with _ | _ | ⟨r0, r1⟩
    · exact ⟨none, by simp [read_multiple_registers, pymodbus_connect_guard_not, h]⟩
    · exact ⟨none, by simp [read_multiple_registers, pymodbus_connect_guard_not, h]⟩
    · exact ⟨some (r0, r1),
        by simp [read_multiple_registers, pymodbus_connect_guard_not, h]⟩

/-- C4 (corrected, counterexample): the claim says the connect-check and the
register read are executed while holding the mutual-exclusion lock.  The
read methods are plain synchronous methods containing no lock acquisition at
all, and the connect-check is never even executed. -/
theorem C4_counterexample :
    ¬ (Action.lockAcquire ∈ read_single_register_actions
       ∧ Action.busRead ∈ read_single_register_actions) := by
  decide

/-- C4 (amended): the `_lock` of the `Modbus` instance is acquired only by
`async_close`; `read_single_register` performs its bus read without any lock
acquisition (and without a connect call), so the lock does not serialize
concurrent read transactions. -/
theorem C4_lock_usage (s : ModbusState) (b : Bool) :
    Action.lockAcquire ∈ (async_close s b).2
    ∧ Action.lockRelease ∈ (async_close s b).2
    ∧ Action.lockAcquire ∉ read_single_register_actions
    ∧ Action.busRead ∈ read_single_register_actions
    ∧ Action.connectCall ∉ read_single_register_actions := by
  obtain ⟨c⟩ := s
  cases c <;> simp [async_close, read_single_register_actions]

/-- C8: on a successful read (a response carrying the `registers` field),
`read_single_register` returns the IEEE-754 single decoded from the two
16-bit registers with big-endian byte order and big-endian word order: the
first register is the high word of the bit pattern.  The pattern assembled
from registers `0x3F80, 0x0000` denotes the float `1`, and from
`0xC020, 0x0000` the float `-5/2`. -/
theorem C8_decode_big_endian (u : Option Int) (a c : Int) (r0 r1 : Nat)
    (io : ReadCall → ReadOutcome)
    (hio : io (a, readKwargs u c) = ReadOutcome.response r0 r1) :
    read_single_register ⟨some ()⟩ u a c io
      = Except.ok (some (decode_32bit_float_BB (r0, r1)))
    ∧ decode_32bit_float_BB (r0, r1) = specFloat32Word r0 r1
    ∧ float32ToRat (specFloat32Word 0x3F80 0x0000) = some 1
    ∧ float32ToRat (specFloat32Word 0xC020 0x0000) = some (-5 / 2) := by
  refine ⟨?_, ?_, ?_, ?_⟩
  · simp [read_single_register, pymodbus_connect_guard_not, hio]
  · show bytesToWordBE [r0 / 256 % 256, r0 % 256, r1 / 256 % 256, r1 % 256]
        = specFloat32Word r0 r1
    simp only [bytesToWordBE, specFloat32Word]
    omega
  · norm_num [float32ToRat, specFloat32Word]
  · norm_num [float32ToRat, specFloat32Word]

/-- Witness for `C8_decode_big_endian`: an oracle answering register pair
`(0x3F80, 0x0000)`, decoded to the bit pattern of the float `1`. -/
theorem C8_decode_big_endian_witness :
    read_single_register ⟨some ()⟩ (some 1) 10 2
        (fun _ => ReadOutcome.response 16256 0)
      = Except.ok (some (decode_32bit_float_BB (16256, 0))) :=
  (C8_decode_big_endian (some 1) 10 2 16256 0
    (fun _ => ReadOutcome.response 16256 0) rfl).1

/-- C9 (corrected, counterexample): the claim says `async_close` acquires
the same mutual-exclusion lock as the bus transactions; but the bus
transactions acquire no lock at all, so no such sharing holds. -/
theorem C9_counterexample :
    ¬ (Action.lockAcquire ∈ (async_close ⟨some ()⟩ false).2
       ∧ Action.lockAcquire ∈ read_single_register_actions
       ∧ (async_close ⟨some ()⟩ false).1.client = none) := by
  decide

/-- C9 (amended): `async_close` acquires the instance's mutual-exclusion
lock (which the read transactions themselves never acquire), clears the
client handle to `None`, and is idempotent: a second call finds the handle
cleared, changes no state, performs no close call, and raises nothing
(its trace is just the lock acquisition and release). -/
theorem C9_close_idempotent (s : ModbusState) (b b' : Bool) :
    Action.lockAcquire ∈ (async_close s b).2
    ∧ Action.lockRelease ∈ (async_close s b).2
    ∧ (async_close s b).1.client = none
    ∧ (async_close (async_close s b).1 b').1 = (async_close s b).1
    ∧ (async_close ⟨none⟩ b).1 = ⟨none⟩
    ∧ (async_close ⟨none⟩ b).2 = [Action.lockAcquire, Action.lockRelease]
    ∧ Action.clientClose ∉ (async_close ⟨none⟩ b).2 := by
  obtain ⟨c⟩ := s
  cases c <;> simp [async_close]

/-- C10: when the `unit` argument is falsy (`None` or `0`), the
`read_input_registers` call is made with empty keyword arguments — neither
`unit` nor `count` is passed — so the caller-supplied count is ignored and
two calls differing only in `count` behave identically; a truthy unit passes
both keywords. -/
theorem C10_falsy_unit_drops_count (u : Option Int) (a c c' : Int)
    (s : ModbusState) (io : ReadCall → ReadOutcome)
    (h : u = none ∨ u = some 0) :
    readKwargs u c = none
    ∧ read_single_register s u a c io = read_single_register s u a c' io
    ∧ read_multiple_registers s u a c io = read_multiple_registers s u a c' io
    ∧ (∀ v : Int, v ≠ 0 → readKwargs (some v) c = some (some v, c)) := by
  have hk : ∀ d : Int, readKwargs u d = none := by
    intro d
    rcases h with h | h <;> simp [readKwargs, h]
  refine ⟨hk c, ?_, ?_, ?_⟩
  · simp [read_single_register, hk]
  · simp [read_multiple_registers, hk]
  · intro v hv
    simp [readKwargs, hv]

/-- Witness for `C10_falsy_unit_drops_count` at `unit = 0`. -/
theorem C10_falsy_unit_drops_count_witness :
    ((some 0 : Option Int) = none ∨ (some 0 : Option Int) = some 0)
    ∧ readKwargs (some 0) 7 = none :=
  ⟨Or.inr rfl,
   (C10_falsy_unit_drops_count (some 0) 10 7 5 ⟨some ()⟩
      (fun _ => ReadOutcome.raisesModbus) (Or.inr rfl)).1⟩

end BoneIO
